import Mathlib

/-!
Shallow embedding of `src/bot.py` (class `SimpleSantaBot`), the single source
file of the AnonSantaKPK repository, together with proofs settling the claims
of the specification.

Modelling conventions:
* The sqlite tables `users` and `event_settings` become the `User` list and
  the `EventSettings` record of a `DB` value; every bot method that opens a
  connection, mutates rows and commits is embedded as a pure function
  `DB → ... → DB × outputs`.
* Outbound `send_message(chat_id, text)` calls are collected in a
  `List Msg` (`Msg = Int × String`), in the order the source emits them.
* `random.shuffle(users)` in `start_santa` is modelled by passing the
  shuffled id order as an explicit argument `shuffled`; theorems hypothesise
  that it is a permutation of the stored ids, which is exactly what
  `random.shuffle` produces.
* Python strings are modelled as Lean `String`; `str.startswith`,
  `str.split()`, `str.strip()` and `int(...)` are embedded below on
  `List Char` data (`startswith`, `pysplit`, `pystrip`, `pyint`).
-/

set_option linter.unusedVariables false
set_option maxRecDepth 16384

/-- Whitespace test used by the models of Python `str.split()` / `str.strip()`
(the ASCII whitespace characters Python treats as separators). -/
def isSpaceChar (c : Char) : Bool :=
  c = ' ' || c = '\t' || c = '\n' || c = '\r' || c = '\x0b' || c = '\x0c'

/-- Worker for the model of Python `str.split()`: split on runs of whitespace,
dropping empty fields; `acc` holds the reversed current field. -/
def splitWsAux : List Char → List Char → List (List Char)
  | [], acc => if acc.isEmpty then [] else [acc.reverse]
  | c :: cs, acc =>
    if isSpaceChar c then
      if acc.isEmpty then splitWsAux cs [] else acc.reverse :: splitWsAux cs []
    else
      splitWsAux cs (c :: acc)

/-- Model of Python `text.split()` (split on whitespace, no empty fields). -/
def pysplit (s : String) : List String :=
  (splitWsAux s.data []).map String.mk

/-- Strip leading and trailing whitespace from a character list. -/
def stripChars (l : List Char) : List Char :=
  ((l.dropWhile isSpaceChar).reverse.dropWhile isSpaceChar).reverse

/-- Model of Python `text.strip()`. -/
def pystrip (s : String) : String :=
  String.mk (stripChars s.data)

/-- Decimal value of a digit list (most significant first). -/
def digitsVal (l : List Char) : Nat :=
  l.foldl (fun n c => n * 10 + (c.toNat - '0'.toNat)) 0

/-- A nonempty all-digit list, as required by Python `int(...)`. -/
def digitsOk (ds : List Char) : Bool :=
  !ds.isEmpty && ds.all Char.isDigit

/-- Model of Python `int(text)`: optional surrounding whitespace, optional
sign, then decimal digits; anything else raises `ValueError`, modelled as
`none`. -/
def pyint (s : String) : Option Int :=
  match stripChars s.data with
  | '-' :: ds => if digitsOk ds then some (-(digitsVal ds : Int)) else none
  | '+' :: ds => if digitsOk ds then some ((digitsVal ds : Int)) else none
  | ds => if digitsOk ds then some ((digitsVal ds : Int)) else none

/-- Model of Python `s.startswith(p)`. -/
def startswith (s p : String) : Bool :=
  p.data.isPrefixOf s.data

/-- Model of `int(text.split()[1])` as used by the `/del`, `/gift` and
`/received` branches of `handle_admin_commands` (bot.py lines 251, 265, 277):
`none` models both the `IndexError` (no second token) and the `ValueError`
(non-numeric token) that the source catches. -/
def parseNumArg (text : String) : Option Int :=
  match pysplit text with
  | _ :: a :: _ => pyint a
  | _ => none

/-- Registration dialogue step stored in `self.user_data[user_id]["step"]`
(bot.py lines 155, 436-446): `"fio"`, `"group"` or `"preferences"`. -/
inductive Step where
  | fio
  | group
  | preferences
  deriving DecidableEq

/-- One in-memory registration session, the dict stored in
`self.user_data[user_id]` (step tag plus the fields collected so far). -/
structure Session where
  step : Step
  fio : Option String := none
  group : Option String := none
  deriving DecidableEq

/-- A row of the `users` table (bot.py lines 28-39): internal autoincrement
`id`, unique `telegram_id`, profile fields, nullable `santa_id` (the internal
id of the participant this row gifts to), and the two delivery flags. -/
structure User where
  id : Int
  telegram_id : Int
  fio : String
  group_name : String
  preferences : String
  santa_id : Option Int
  gift_delivered : Bool
  gift_received : Bool
  deriving DecidableEq

instance : Inhabited User :=
  ⟨{ id := 0, telegram_id := 0, fio := "", group_name := "", preferences := "",
     santa_id := none, gift_delivered := false, gift_received := false }⟩

/-- The singleton `event_settings` row (bot.py lines 41-52). -/
structure EventSettings where
  registration_open : Bool
  event_started : Bool
  deriving DecidableEq

/-- The persistent state of `santa.db`. -/
structure DB where
  users : List User
  settings : EventSettings
  deriving DecidableEq

/-- An outbound `send_message(chat_id, text)` call. -/
abbrev Msg := Int × String

/-- The in-memory session map `self.user_data`, keyed by telegram id. -/
abbrev Sessions := List (Int × Session)

/-- `is_registration_open` (bot.py lines 58-65); the settings row always
exists after `init_database`, so the model reads the flag directly. -/
def is_registration_open (db : DB) : Bool :=
  db.settings.registration_open

/-- `is_event_started` (bot.py lines 67-74). -/
def is_event_started (db : DB) : Bool :=
  db.settings.event_started

/-- `SELECT * FROM users WHERE telegram_id = ?` + `fetchone()`. -/
def findUserByTelegram (users : List User) (tid : Int) : Option User :=
  users.find? (fun u => u.telegram_id = tid)

/-- `SELECT ... FROM users WHERE id = ?` + `fetchone()`. -/
def findUserById (users : List User) (uid : Int) : Option User :=
  users.find? (fun u => u.id = uid)

/-- The recipient mapping read back from storage: the `santa_id` of the row
with internal id `uid` (`none` when the row is absent or unassigned). -/
def recipientOf (users : List User) (uid : Int) : Option Int :=
  (findUserById users uid).bind (fun u => u.santa_id)

/-- `show_assignment` (bot.py lines 157-185). The Python guard
`if result and result[0]` takes the error branch when the row is missing or
its `santa_id` is NULL. -/
def show_assignment (db : DB) (chat_id : Int) (user_db_id : Int) : List Msg :=
  match recipientOf db.users user_db_id with
  | some receiver_id =>
    let preferences :=
      match findUserById db.users receiver_id with
      | some r => r.preferences
      | none => "Не указано"
    [(chat_id,
      "🎅 Ты даришь подарок Тайному Деду Морозу " ++ toString receiver_id ++
      "\n\nЕго предпочтения:\n" ++ preferences ++
      "\n\n📦 Принести подарок необходимо в аудиторию 257 до 18 декабря.\n✏️ Не забудь подписать на подарке ID "
      ++ toString receiver_id)]
  | none => [(chat_id, "Жеребьевка еще не проведена или произошла ошибка.")]

/-- Dict lookup `self.user_data.get(user_id)`. -/
def getSession (ud : Sessions) (uid : Int) : Option Session :=
  (ud.find? (fun p => p.1 = uid)).map (fun p => p.2)

/-- Dict assignment `self.user_data[user_id] = s` (replace any old binding). -/
def setSession (ud : Sessions) (uid : Int) (s : Session) : Sessions :=
  (uid, s) :: ud.filter (fun p => ¬ p.1 = uid)

/-- Dict deletion `del self.user_data[user_id]`. -/
def eraseSession (ud : Sessions) (uid : Int) : Sessions :=
  ud.filter (fun p => ¬ p.1 = uid)

/-- `handle_start` (bot.py lines 132-155). Returns the updated session map
and the outbound messages; the database is never written here. -/
def handle_start (db : DB) (user_data : Sessions) (chat_id user_id : Int)
    (user_name : String) : Sessions × List Msg :=
  match findUserByTelegram db.users user_id with
  | some existing_user =>
    if is_event_started db then
      (user_data, show_assignment db chat_id existing_user.id)
    else
      (user_data,
       [(chat_id,
         "Привет, " ++ existing_user.fio ++ "! Ты уже зарегистрирован.\nТвой ID: Тайный Дед Мороз "
         ++ toString existing_user.id ++ "\n\nЖди начала мероприятия!")])
  | none =>
    if !(is_registration_open db) then
      (user_data, [(chat_id, "Регистрация на мероприятие закрыта! 🎅")])
    else
      (setSession user_data user_id { step := Step.fio },
       [(chat_id,
         "Привет, " ++ user_name ++
         "! 🎄\nДобро пожаловать в Тайного Деда Мороза!\n\nВведи свое ФИО:")])

/-- The id sqlite AUTOINCREMENT hands to a fresh `users` row, modelled as one
more than the largest id present (the claims do not depend on the behaviour
of AUTOINCREMENT after deletions). -/
def nextUserId (users : List User) : Int :=
  (users.map (fun u => u.id)).foldl max 0 + 1

/-- `handle_message` (bot.py lines 431-472): the registration state machine
step handler plus the fallback prompt. -/
def handle_message (db : DB) (user_data : Sessions) (chat_id user_id : Int)
    (user_name text : String) : DB × Sessions × List Msg :=
  match getSession user_data user_id with
  | some sess =>
    match sess.step with
    | Step.fio =>
      (db, setSession user_data user_id { sess with fio := some text, step := Step.group },
       [(chat_id, "Отлично! Теперь введи свою учебную группу:")])
    | Step.group =>
      (db, setSession user_data user_id { sess with group := some text, step := Step.preferences },
       [(chat_id,
         "Супер! Теперь опиши свои предпочтения:\n• Что ты любишь?\n• Что не любишь?\n• Какие подарки хотел бы получить?")])
    | Step.preferences =>
      if db.users.any (fun u => u.telegram_id = user_id) then
        (db, eraseSession user_data user_id, [(chat_id, "Ты уже зарегистрирован!")])
      else
        let user_db_id := nextUserId db.users
        ({ db with users := db.users ++
            [{ id := user_db_id, telegram_id := user_id, fio := sess.fio.getD "",
               group_name := sess.group.getD "", preferences := text, santa_id := none,
               gift_delivered := false, gift_received := false }] },
         eraseSession user_data user_id,
         [(chat_id,
           "🎉 Регистрация завершена! 🎉\n\nТвой ID: Тайный Дед Мороз " ++ toString user_db_id
           ++ "\nФИО: " ++ sess.fio.getD "" ++ "\nГруппа: " ++ sess.group.getD ""
           ++ "\n\nЖди начала мероприятия!")])
  | none => (db, user_data, [(chat_id, "Используй /start для регистрации!")])

/-- `get_all_users` (bot.py lines 303-310). -/
def get_all_users (db : DB) : List User :=
  db.users

/-- `close_registration` (bot.py lines 312-318). -/
def close_registration (db : DB) : DB :=
  { db with settings := { db.settings with registration_open := false } }

/-- `open_registration` (bot.py lines 320-326). -/
def open_registration (db : DB) : DB :=
  { db with settings := { db.settings with registration_open := true } }

/-- One `UPDATE users SET santa_id = ? WHERE id = ?` (bot.py line 347). -/
def updateSantaId (users : List User) (giver receiver : Int) : List User :=
  users.map (fun u => if u.id = giver then { u with santa_id := some receiver } else u)

/-- The (giver, receiver) pairs produced by the assignment loop over the
shuffled id list (bot.py lines 344-346): position `i` gives to position
`(i + 1) % n`. -/
def cyclePairs (shuffled : List Int) : List (Int × Int) :=
  (List.range shuffled.length).map (fun i =>
    (shuffled.getD i 0, shuffled.getD ((i + 1) % shuffled.length) 0))

/-- The sequence of row updates the assignment loop performs, in order. -/
def applyAssignments (users : List User) (pairs : List (Int × Int)) : List User :=
  pairs.foldl (fun us p => updateSantaId us p.1 p.2) users

/-- `start_santa` (bot.py lines 328-353). `random.shuffle` is modelled by the
`shuffled` argument (the shuffled order of the selected ids). With fewer than
2 users nothing is written and the count is returned; otherwise every user's
`santa_id` is overwritten along the cycle and `event_started` is set. -/
def start_santa (db : DB) (shuffled : List Int) : DB × Nat :=
  let users := db.users.map (fun u => u.id)
  if users.length < 2 then
    (db, users.length)
  else
    ({ users := applyAssignments db.users (cyclePairs shuffled),
       settings := { db.settings with event_started := true } },
     users.length)

/-- `delete_user` (bot.py lines 355-370). -/
def delete_user (db : DB) (user_db_id : Int) : DB × Option User :=
  match findUserById db.users user_db_id with
  | some user_info =>
    ({ db with users := db.users.filter (fun u => ¬ u.id = user_db_id) }, some user_info)
  | none => (db, none)

/-- `notify_all_users` (bot.py lines 372-376): assignment fan-out. -/
def notify_all_users (db : DB) : List Msg :=
  (get_all_users db).flatMap (fun u => show_assignment db u.telegram_id u.id)

/-- `mark_gift_delivered` (bot.py lines 378-386): the UPDATE plus the
`rowcount > 0` success flag (true iff some row has this id). -/
def mark_gift_delivered (db : DB) (user_db_id : Int) : DB × Bool :=
  ({ db with users := db.users.map (fun u =>
      if u.id = user_db_id then { u with gift_delivered := true } else u) },
   db.users.any (fun u => u.id = user_db_id))

/-- `mark_gift_received` (bot.py lines 388-396). -/
def mark_gift_received (db : DB) (user_db_id : Int) : DB × Bool :=
  ({ db with users := db.users.map (fun u =>
      if u.id = user_db_id then { u with gift_received := true } else u) },
   db.users.any (fun u => u.id = user_db_id))

/-- `notify_gift_delivered` (bot.py lines 398-417): if some row gives to
`user_db_id`, the notification is sent to the telegram id of the row
`user_db_id` itself. -/
def notify_gift_delivered (db : DB) (user_db_id : Int) : List Msg :=
  match db.users.find? (fun u => u.santa_id = some user_db_id) with
  | some _ =>
    match findUserById db.users user_db_id with
    | some receiver =>
      [(receiver.telegram_id, "🎉 Тайный Дед Мороз доставил тебе подарок! Приходи в аудиторию 257!")]
    | none => []
  | none => []

/-- `notify_gift_received` (bot.py lines 419-429); defined in the source but
never invoked by any command branch. -/
def notify_gift_received (db : DB) (user_db_id : Int) : List Msg :=
  match findUserById db.users user_db_id with
  | some u => [(u.telegram_id, "🎉 Спасибо! Твой подарок был получен!")]
  | none => []

/-- The `/stats` report text (bot.py lines 193-216). -/
def statsMessage (db : DB) : String :=
  "📊 Статистика мероприятия:\n\n👥 Зарегистрировано участников: "
  ++ toString db.users.length
  ++ "\n🎁 Подарков доставлено: "
  ++ toString (db.users.filter (fun u => u.gift_delivered)).length
  ++ "\n🎁 Подарков получено: "
  ++ toString (db.users.filter (fun u => u.gift_received)).length
  ++ "\n\nРегистрация: " ++ (if is_registration_open db then "✅ Открыта" else "❌ Закрыта")
  ++ "\nМероприятие: " ++ (if is_event_started db then "✅ Началось" else "❌ Не началось")

/-- One line of the `/users` listing (bot.py line 228). -/
def userLine (u : User) : String :=
  "🎅 " ++ u.fio ++ " (ID: " ++ toString u.id ++ ")\nГруппа: " ++ u.group_name
  ++ "\nПодарок: " ++ (if u.gift_delivered then "✅" else "❌")
  ++ " Получен: " ++ (if u.gift_received then "✅" else "❌") ++ "\n\n"

/-- The `/users` listing text (bot.py lines 224-228). -/
def usersMessage (users : List User) : String :=
  users.foldl (fun m u => m ++ userLine u) "📋 Список участников:\n\n"

/-- The `/help_admin` text (bot.py lines 286-300). -/
def helpAdminMessage : String :=
  "🎅 Команды организатора:\n\n/stats - статистика\n/users - список участников  \n/close - закрыть регистрацию\n/open - открыть регистрацию\n/start_event - начать жеребьевку\n/del <ID> - удалить участника\n/gift <ID> - отметить доставку подарка\n/received <ID> - отметить получение подарка\n\n📝 Примеры:\n/del 5\n/gift 3\n/received 7"

/-- The `/help` text (bot.py lines 494-499). -/
def helpMessage : String :=
  "🎅 Помощь по боту:\n\n/start - регистрация или проверка статуса\n/help - эта справка\n\nДля организаторов доступны команды /help_admin"

/-- `handle_admin_commands` (bot.py lines 187-301). `organizers` models
`ORGANIZER_IDS` from config; `shuffled` is the shuffle oracle consumed by
`start_santa` on the `/start_event` branch. A text that matches no branch
falls off the end of the `elif` chain: no message, no write. -/
def handle_admin_commands (db : DB) (chat_id : Int) (text : String) (user_id : Int)
    (organizers : List Int) (shuffled : List Int) : DB × List Msg :=
  if !(organizers.contains user_id) then
    (db, [(chat_id, "У вас нет прав администратора")])
  else if text = "/stats" then
    (db, [(chat_id, statsMessage db)])
  else if text = "/users" then
    if (get_all_users db).isEmpty then
      (db, [(chat_id, "Нет зарегистрированных пользователей")])
    else
      (db, [(chat_id, usersMessage (get_all_users db))])
  else if text = "/close" then
    (close_registration db, [(chat_id, "✅ Регистрация закрыта!")])
  else if text = "/open" then
    (open_registration db, [(chat_id, "✅ Регистрация открыта!")])
  else if text = "/start_event" then
    if (start_santa db shuffled).2 > 1 then
      ((start_santa db shuffled).1,
       (chat_id, "✅ Жеребьевка завершена! Участников: " ++ toString (start_santa db shuffled).2)
        :: notify_all_users (start_santa db shuffled).1)
    else
      ((start_santa db shuffled).1, [(chat_id, "❌ Для жеребьевки нужно минимум 2 участника")])
  else if startswith text "/del " then
    match parseNumArg text with
    | some user_id_to_delete =>
      match (delete_user db user_id_to_delete).2 with
      | some user_info =>
        ((delete_user db user_id_to_delete).1,
         [(chat_id, "✅ Пользователь удален:\nID: " ++ toString user_info.id
            ++ "\nФИО: " ++ user_info.fio ++ "\nГруппа: " ++ user_info.group_name)]
         ++ (if is_event_started (delete_user db user_id_to_delete).1 then
              [(chat_id, "⚠️ Мероприятие уже началось. Рекомендуется перепровести жеребьевку командой /start_event")]
            else []))
      | none =>
        ((delete_user db user_id_to_delete).1,
         [(chat_id, "❌ Пользователь с таким ID не найден")])
    | none => (db, [(chat_id, "Использование: /del <ID>\n\nНапример: /del 5")])
  else if startswith text "/gift " then
    match parseNumArg text with
    | some user_id_to_mark =>
      if (mark_gift_delivered db user_id_to_mark).2 then
        ((mark_gift_delivered db user_id_to_mark).1,
         (chat_id, "✅ Подарок от Тайного Деда Мороза " ++ toString user_id_to_mark
            ++ " отмечен как доставленный")
          :: notify_gift_delivered (mark_gift_delivered db user_id_to_mark).1 user_id_to_mark)
      else
        ((mark_gift_delivered db user_id_to_mark).1, [(chat_id, "❌ Пользователь не найден")])
    | none => (db, [(chat_id, "Использование: /gift <ID>\n\nНапример: /gift 3")])
  else if startswith text "/received " then
    match parseNumArg text with
    | some user_id_to_mark =>
      if (mark_gift_received db user_id_to_mark).2 then
        ((mark_gift_received db user_id_to_mark).1,
         [(chat_id, "✅ Подарок для Тайного Деда Мороза " ++ toString user_id_to_mark
            ++ " отмечен как полученный")])
      else
        ((mark_gift_received db user_id_to_mark).1, [(chat_id, "❌ Пользователь не найден")])
    | none => (db, [(chat_id, "Использование: /received <ID>\n\nНапример: /received 7")])
  else if text = "/help_admin" then
    (db, [(chat_id, helpAdminMessage)])
  else
    (db, [])

/-- The command prefixes `process_updates` treats as admin commands
(bot.py line 489). -/
def admin_command_tokens : List String :=
  ["/stats", "/users", "/close", "/open", "/start_event", "/del", "/gift", "/received", "/help_admin"]

/-- One inbound telegram `message` object, with the fields the source reads. -/
structure InMessage where
  chat_id : Int
  from_id : Int
  first_name : Option String
  text : Option String
  deriving DecidableEq

/-- One element of a `getUpdates` batch. -/
structure Update where
  update_id : Int
  message : Option InMessage
  deriving DecidableEq

/-- The mutable bot state threaded through the main loop: the polling cursor
`self.last_update_id`, the database and the session map. -/
structure BotState where
  last_update_id : Int
  db : DB
  user_data : Sessions
  deriving DecidableEq

/-- Observable steps of the ingestion loop: a cursor advance and a dispatch
to the message router, recorded in execution order. -/
inductive TraceAction where
  | setCursor (update_id : Int)
  | dispatch (update_id : Int)
  deriving DecidableEq

/-- The message dispatch of `process_updates` (bot.py lines 488-502): admin
prefix match, then `/start`, then `/help`, then the free-text handler. -/
def route_message (db : DB) (user_data : Sessions) (chat_id user_id : Int)
    (user_name text : String) (organizers : List Int) (shuffled : List Int) :
    DB × Sessions × List Msg :=
  if startswith text "/" && admin_command_tokens.any (fun cmd => startswith text cmd) then
    ((handle_admin_commands db chat_id text user_id organizers shuffled).1, user_data,
     (handle_admin_commands db chat_id text user_id organizers shuffled).2)
  else if text = "/start" then
    (db, (handle_start db user_data chat_id user_id user_name).1,
     (handle_start db user_data chat_id user_id user_name).2)
  else if text = "/help" then
    (db, user_data, [(chat_id, helpMessage)])
  else
    handle_message db user_data chat_id user_id user_name text

/-- One iteration of the loop body of `process_updates` (bot.py lines
476-502): the cursor is advanced to the update's id first, then the update
(if it carries a message) is dispatched. -/
def process_one (st : BotState) (organizers : List Int) (shuffled : List Int)
    (u : Update) : BotState × List Msg × List TraceAction :=
  match u.message with
  | none => ({ st with last_update_id := u.update_id }, [], [TraceAction.setCursor u.update_id])
  | some m =>
    ({ last_update_id := u.update_id,
       db := (route_message st.db st.user_data m.chat_id m.from_id (m.first_name.getD "Друг")
         (pystrip (m.text.getD "")) organizers shuffled).1,
       user_data := (route_message st.db st.user_data m.chat_id m.from_id (m.first_name.getD "Друг")
         (pystrip (m.text.getD "")) organizers shuffled).2.1 },
     (route_message st.db st.user_data m.chat_id m.from_id (m.first_name.getD "Друг")
       (pystrip (m.text.getD "")) organizers shuffled).2.2,
     [TraceAction.setCursor u.update_id, TraceAction.dispatch u.update_id])

/-- `process_updates` (bot.py lines 474-502), folded over the polled batch in
order, collecting the outbound messages and the action trace. -/
def process_updates (st : BotState) (organizers : List Int) (shuffled : List Int)
    (updates : List Update) : BotState × List Msg × List TraceAction :=
  updates.foldl (fun acc u =>
    ((process_one acc.1 organizers shuffled u).1,
     acc.2.1 ++ (process_one acc.1 organizers shuffled u).2.1,
     acc.2.2 ++ (process_one acc.1 organizers shuffled u).2.2)) (st, [], [])

/-- The `offset` parameter `get_updates` sends (bot.py lines 104-110). -/
def get_updates_offset (st : BotState) : Int :=
  st.last_update_id + 1

/-- Cumulative effect of the assignment loop's updates on a single row:
fold the (giver, receiver) updates over one user. -/
def updOne (u : User) (pairs : List (Int × Int)) : User :=
  pairs.foldl (fun v p => if v.id = p.1 then { v with santa_id := some p.2 } else v) u

/-- `k`-fold iteration of the stored recipient mapping, for stating the
single-cycle property of the assignment. -/
def iterRec (users : List User) : Nat → Int → Option Int
  | 0, a => some a
  | k + 1, a => (recipientOf users a).bind (iterRec users k)

/-- Fixture users (unassigned). -/
def userAlice : User :=
  { id := 1, telegram_id := 101, fio := "Алиса", group_name := "Г1",
    preferences := "книги", santa_id := none, gift_delivered := false, gift_received := false }

def userBoris : User :=
  { id := 2, telegram_id := 102, fio := "Борис", group_name := "Г2",
    preferences := "чай", santa_id := none, gift_delivered := false, gift_received := false }

def userVera : User :=
  { id := 3, telegram_id := 103, fio := "Вера", group_name := "Г3",
    preferences := "кофе", santa_id := none, gift_delivered := false, gift_received := false }

/-- Fixture users with the assignment 1 → 2 → 1 stored. -/
def userAliceAssigned : User :=
  { userAlice with santa_id := some 2 }

def userBorisAssigned : User :=
  { userBoris with santa_id := some 1 }

/-- Fixture: three registered users, registration open, event not started. -/
def dbThree : DB :=
  { users := [userAlice, userBoris, userVera],
    settings := { registration_open := true, event_started := false } }

/-- Fixture: two users with the assignment 1 → 2 → 1 already stored,
registration closed, event started. -/
def dbTwoAssigned : DB :=
  { users := [userAliceAssigned, userBorisAssigned],
    settings := { registration_open := false, event_started := true } }

/-- Fixture: a single registered user. -/
def dbOne : DB :=
  { users := [userAlice],
    settings := { registration_open := true, event_started := false } }

/-- Fixture update carrying a `/help` message. -/
def updHelp : Update :=
  { update_id := 5,
    message := some { chat_id := 9, from_id := 9, first_name := none, text := some "/help" } }

/-- Fixture update carrying no message payload. -/
def updEmpty : Update :=
  { update_id := 6, message := none }

/-- Fixture bot state with cursor 0 over the three-user database. -/
def stateZero : BotState :=
  { last_update_id := 0, db := dbThree, user_data := [] }

/-- Two strings differ when the first's data is not a prefix of the second's. -/
theorem append_ne_of_not_pref (p arg q : String) (h : ¬ p.data <+: q.data) :
    p ++ arg ≠ q := by
  intro e
  exact h ⟨arg.data, by rw [← String.data_append, e]⟩

/-- A list that is not a prefix of `a` and no longer than `a` is not a prefix
of `a ++ r` either. -/
theorem not_prefix_append (b a r : List Char) (hlen : b.length ≤ a.length)
    (hne : ¬ b <+: a) : ¬ b <+: (a ++ r) := by
  rintro ⟨t, ht⟩
  apply hne
  have h1 : (a ++ r).take b.length = b := by
    rw [← ht, List.take_left]
  rw [List.take_append_of_le_length hlen] at h1
  exact h1 ▸ List.take_prefix _ _

/-- `(p ++ arg).startswith(p)` always holds. -/
theorem startswith_append_self (p arg : String) : startswith (p ++ arg) p = true := by
  simp only [startswith, String.data_append, List.isPrefixOf_iff_prefix]
  exact List.prefix_append _ _

/-- `(p ++ arg).startswith(q)` fails when `q` is a short non-prefix of `p`. -/
theorem startswith_append_ne (p arg q : String) (hlen : q.data.length ≤ p.data.length)
    (hne : ¬ q.data <+: p.data) : startswith (p ++ arg) q = false := by
  simp only [startswith, String.data_append]
  cases hb : q.data.isPrefixOf (p.data ++ arg.data) with
  | false => rfl
  | true =>
    exact absurd ( List.isPrefixOf_iff_prefix.mp hb) (not_prefix_append q.data p.data arg.data hlen hne)

theorem splitWsAux_nil (acc : List Char) :
    splitWsAux [] acc = if acc.isEmpty then [] else [acc.reverse] := rfl

theorem splitWsAux_cons (c : Char) (cs acc : List Char) :
    splitWsAux (c :: cs) acc =
      if isSpaceChar c then
        if acc.isEmpty then splitWsAux cs [] else acc.reverse :: splitWsAux cs []
      else splitWsAux cs (c :: acc) := rfl

/-- Scanning a run of non-whitespace characters just extends the accumulator. -/
theorem splitWsAux_nonspace (cmd : List Char) (rest acc : List Char)
    (h : ∀ c ∈ cmd, isSpaceChar c = false) :
    splitWsAux (cmd ++ rest) acc = splitWsAux rest (cmd.reverse ++ acc) := by
  induction cmd generalizing acc with
  | nil => simp
  | cons c cs ih =>
    have hc : isSpaceChar c = false := h c (List.mem_cons_self c cs)
    rw [List.cons_append, splitWsAux_cons, if_neg (by rw [hc]; exact Bool.false_ne_true)]
    rw [ih (c :: acc) (fun d hd => h d (List.mem_cons_of_mem c hd))]
    rw [List.reverse_cons, List.append_assoc, List.singleton_append]

/-- Splitting a nonempty all-non-whitespace list yields one field. -/
theorem splitWsAux_all_nonspace (l acc : List Char) (hne : l ≠ [])
    (h : ∀ c ∈ l, isSpaceChar c = false) :
    splitWsAux l acc = [acc.reverse ++ l] := by
  have h0 := splitWsAux_nonspace l [] acc h
  rw [List.append_nil] at h0
  rw [h0, splitWsAux_nil, if_neg, List.reverse_append, List.reverse_reverse]
  intro hc
  rw [List.isEmpty_iff] at hc
  rcases List.append_eq_nil.mp hc with ⟨h1, _⟩
  exact hne (List.reverse_eq_nil_iff.mp h1)

/-- `int(text.split()[1])` on `tok ++ arg`, where `tok` is a command token
followed by one space and `arg` is a nonempty whitespace-free argument,
parses exactly `arg`. -/
theorem parseNumArg_token (tokSp : String) (body : List Char) (arg : String)
    (htok : tokSp.data = body ++ [' '])
    (hbody_ne : body ≠ []) (hbody : ∀ c ∈ body, isSpaceChar c = false)
    (harg_ne : arg.data ≠ []) (harg : ∀ c ∈ arg.data, isSpaceChar c = false) :
    parseNumArg (tokSp ++ arg) = pyint arg := by
  have hdata : (tokSp ++ arg).data = body ++ (' ' :: arg.data) := by
    rw [String.data_append, htok, List.append_assoc, List.singleton_append]
  unfold parseNumArg pysplit
  rw [hdata, splitWsAux_nonspace body (' ' :: arg.data) [] hbody, splitWsAux_cons]
  rw [if_pos (show isSpaceChar ' ' = true from rfl)]
  rw [if_neg (by
    intro hc
    rw [List.isEmpty_iff] at hc
    rcases List.append_eq_nil.mp hc with ⟨h1, _⟩
    exact hbody_ne (List.reverse_eq_nil_iff.mp h1))]
  rw [splitWsAux_all_nonspace arg.data [] harg_ne harg]
  rfl

theorem getSession_set_same (ud : Sessions) (uid : Int) (s : Session) :
    getSession (setSession ud uid s) uid = some s := by
  unfold getSession setSession
  rw [List.find?_cons, show decide ((uid, s).1 = uid) = true by simp]
  rfl

theorem find?_filter_other_key (ud : Sessions) (uid k : Int) (h : ¬ k = uid) :
    (ud.filter (fun p => ¬ p.1 = uid)).find? (fun p => p.1 = k) =
      ud.find? (fun p => p.1 = k) := by
  induction ud with
  | nil => rfl
  | cons p ps ih =>
    by_cases hp : p.1 = uid
    · rw [List.filter_cons_of_neg (by simp [hp]), ih, List.find?_cons,
        show decide (p.1 = k) = false from by
          rw [decide_eq_false_iff_not]
          intro hc
          exact h (hc ▸ hp)]
    · rw [List.filter_cons_of_pos (by simp [hp]), List.find?_cons, List.find?_cons, ih]

theorem getSession_set_other (ud : Sessions) (uid k : Int) (s : Session) (h : ¬ k = uid) :
    getSession (setSession ud uid s) k = getSession ud k := by
  unfold getSession setSession
  rw [List.find?_cons,
    show decide ((uid, s).1 = k) = false from by
      rw [decide_eq_false_iff_not]
      exact fun hc => h hc.symm,
    find?_filter_other_key ud uid k h]

/-- `find?` by id commutes with mapping an id-preserving function. -/
theorem find?_map_key (users : List User) (f : User → User)
    (hf : ∀ u, (f u).id = u.id) (x : Int) :
    (users.map f).find? (fun u => u.id = x) = (users.find? (fun u => u.id = x)).map f := by
  rw [List.find?_map]
  have hfun : ((fun u : User => decide (u.id = x)) ∘ f) = (fun u : User => decide (u.id = x)) := by
    funext u
    rw [Function.comp_apply, hf u]
  rw [hfun]

/-- With pairwise distinct ids, `find?` by id returns the member itself. -/
theorem find?_eq_of_mem_nodup (users : List User) (hnd : (users.map User.id).Nodup)
    (u : User) (hu : u ∈ users) (x : Int) (hx : u.id = x) :
    users.find? (fun v => v.id = x) = some u := by
  induction users with
  | nil => cases hu
  | cons v vs ih =>
    rw [List.map_cons, List.nodup_cons] at hnd
    rcases List.mem_cons.mp hu with rfl | hmem
    · rw [List.find?_cons, show decide (u.id = x) = true by simp [hx]]
    · have hvx : ¬ v.id = x := by
        intro he
        exact hnd.1 (by rw [he, ← hx]; exact List.mem_map.mpr ⟨u, hmem, rfl⟩)
      rw [List.find?_cons, show decide (v.id = x) = false by simp [hvx]]
      exact ih hnd.2 hmem

/-- An UPDATE whose WHERE clause matches no row leaves the table unchanged. -/
theorem map_id_of_no_match (users : List User) (x : Int) (g : User → User)
    (h : ∀ u ∈ users, ¬ u.id = x) :
    users.map (fun u => if u.id = x then g u else u) = users := by
  have he : users.map (fun u => if u.id = x then g u else u) = users.map (fun u => u) :=
    List.map_congr_left (fun u hu => by rw [if_neg (h u hu)])
  rw [he, List.map_id']

/-- The ordered row updates of the assignment loop act independently on each
row. -/
theorem applyAssignments_eq_map (users : List User) (pairs : List (Int × Int)) :
    applyAssignments users pairs = users.map (fun u => updOne u pairs) := by
  induction pairs generalizing users with
  | nil =>
    show users = users.map (fun u => u)
    rw [List.map_id']
  | cons p ps ih =>
    show applyAssignments (updateSantaId users p.1 p.2) ps = _
    rw [ih (updateSantaId users p.1 p.2)]
    unfold updateSantaId
    rw [List.map_map]
    rfl

theorem updOne_id (u : User) (pairs : List (Int × Int)) :
    (updOne u pairs).id = u.id := by
  induction pairs generalizing u with
  | nil => rfl
  | cons p ps ih =>
    show (updOne (if u.id = p.1 then { u with santa_id := some p.2 } else u) ps).id = u.id
    by_cases h : u.id = p.1
    · rw [if_pos h]
      exact ih _
    · rw [if_neg h]
      exact ih u

theorem updOne_not_mem (u : User) (pairs : List (Int × Int))
    (h : u.id ∉ pairs.map Prod.fst) : updOne u pairs = u := by
  induction pairs generalizing u with
  | nil => rfl
  | cons p ps ih =>
    rw [List.map_cons, List.mem_cons] at h
    push_neg at h
    show updOne (if u.id = p.1 then { u with santa_id := some p.2 } else u) ps = u
    rw [if_neg h.1]
    exact ih u h.2

/-- With pairwise distinct givers, the row of giver `u.id` ends up pointing
at its unique receiver. -/
theorem updOne_mem_nodup (u : User) (pairs : List (Int × Int)) (r : Int)
    (hnd : (pairs.map Prod.fst).Nodup) (hm : (u.id, r) ∈ pairs) :
    updOne u pairs = { u with santa_id := some r } := by
  induction pairs generalizing u with
  | nil => cases hm
  | cons p ps ih =>
    obtain ⟨g, rc⟩ := p
    rw [List.map_cons, List.nodup_cons] at hnd
    show updOne (if u.id = (g, rc).1 then { u with santa_id := some (g, rc).2 } else u) ps = _
    by_cases h : u.id = g
    · rw [if_pos h]
      have hnm : u.id ∉ ps.map Prod.fst := by rw [h]; exact hnd.1
      have hr : r = rc := by
        rcases List.mem_cons.mp hm with he | hmem
        · cases he
          rfl
        · exact absurd (List.mem_map.mpr ⟨(u.id, r), hmem, rfl⟩) hnm
      rw [hr]
      exact updOne_not_mem _ ps hnm
    · rw [if_neg h]
      have hmem : (u.id, r) ∈ ps := by
        rcases List.mem_cons.mp hm with he | hm2
        · exact absurd (by cases he; rfl) h
        · exact hm2
      exact ih u hnd.2 hmem

theorem getD_of_lt {α : Type} (l : List α) (d : α) (i : Nat) (h : i < l.length) :
    l.getD i d = l[i] := by
  rw [List.getD_eq_getElem?_getD, List.getElem?_eq_getElem h]
  rfl

theorem range_map_getD (l : List Int) :
    (List.range l.length).map (fun i => l.getD i 0) = l := by
  apply List.ext_getElem
  · rw [List.length_map, List.length_range]
  · intro i h1 h2
    rw [List.getElem_map, List.getElem_range, getD_of_lt l 0 i h2]

theorem cyclePairs_map_fst (sh : List Int) : (cyclePairs sh).map Prod.fst = sh := by
  unfold cyclePairs
  rw [List.map_map]
  exact range_map_getD sh

theorem cyclePairs_mem (sh : List Int) (i : Nat) (h : i < sh.length) :
    (sh.getD i 0, sh.getD ((i + 1) % sh.length) 0) ∈ cyclePairs sh := by
  unfold cyclePairs
  exact List.mem_map.mpr ⟨i, List.mem_range.mpr h, rfl⟩

/-- `start_santa` with at least two users: the users list is rewritten by the
cycle updates, `event_started` is set, and the participant count is returned. -/
theorem start_santa_char (db : DB) (sh : List Int) (hlen : 2 ≤ db.users.length) :
    (start_santa db sh).1.users = db.users.map (fun u => updOne u (cyclePairs sh)) ∧
    (start_santa db sh).1.settings = { db.settings with event_started := true } ∧
    (start_santa db sh).2 = db.users.length := by
  have hc : ¬ ((db.users.map (fun u => u.id)).length < 2) := by
    rw [List.length_map]
    omega
  unfold start_santa
  rw [if_neg hc]
  exact ⟨applyAssignments_eq_map db.users (cyclePairs sh), rfl, by rw [List.length_map]⟩

/-- After `start_santa`, the id at shuffle position `i` is assigned the id at
position `(i+1) mod n`. -/
theorem recipient_start_santa (db : DB) (sh : List Int)
    (hnd : (db.users.map User.id).Nodup)
    (hperm : List.Perm sh (db.users.map User.id))
    (hlen : 2 ≤ db.users.length)
    (i : Nat) (hi : i < sh.length) :
    recipientOf (start_santa db sh).1.users (sh.getD i 0) =
      some (sh.getD ((i + 1) % sh.length) 0) := by
  have hshnd : sh.Nodup := hperm.nodup_iff.mpr hnd
  unfold recipientOf findUserById
  rw [(start_santa_char db sh hlen).1]
  rw [find?_map_key db.users _ (fun u => updOne_id u _) (sh.getD i 0)]
  have hmem : sh.getD i 0 ∈ db.users.map User.id := by
    rw [← hperm.mem_iff, getD_of_lt sh 0 i hi]
    exact List.getElem_mem hi
  obtain ⟨u, hu, hid⟩ := List.mem_map.mp hmem
  rw [find?_eq_of_mem_nodup db.users hnd u hu _ hid]
  have hupd : updOne u (cyclePairs sh) =
      { u with santa_id := some (sh.getD ((i + 1) % sh.length) 0) } := by
    apply updOne_mem_nodup
    · rw [cyclePairs_map_fst]
      exact hshnd
    · rw [hid]
      exact cyclePairs_mem sh i hi
  rw [Option.map_some', hupd]
  rfl

/-- Iterating the stored recipient map `k` steps moves `k` positions along
the shuffled cycle. -/
theorem iterRec_start_santa (db : DB) (sh : List Int)
    (hnd : (db.users.map User.id).Nodup)
    (hperm : List.Perm sh (db.users.map User.id))
    (hlen : 2 ≤ db.users.length)
    (k i : Nat) (hi : i < sh.length) :
    iterRec (start_santa db sh).1.users k (sh.getD i 0) =
      some (sh.getD ((i + k) % sh.length) 0) := by
  induction k generalizing i with
  | zero =>
    show some (sh.getD i 0) = _
    rw [Nat.add_zero, Nat.mod_eq_of_lt hi]
  | succ k ih =>
    show (recipientOf _ _).bind _ = _
    rw [recipient_start_santa db sh hnd hperm hlen i hi, Option.some_bind]
    have hj : (i + 1) % sh.length < sh.length :=
      Nat.mod_lt _ (by omega)
    have harith : ((i + 1) % sh.length + k) % sh.length = (i + (k + 1)) % sh.length := by
      rw [Nat.mod_add_mod]
      congr 1
      omega
    rw [ih _ hj, harith]

theorem mem_getD_index (sh : List Int) (a : Int) (ha : a ∈ sh) :
    ∃ i, i < sh.length ∧ sh.getD i 0 = a := by
  obtain ⟨i, hi, he⟩ := List.mem_iff_getElem.mp ha
  exact ⟨i, hi, by rw [getD_of_lt sh 0 i hi]; exact he⟩

theorem getD_inj_nodup (sh : List Int) (hnd : sh.Nodup) (i j : Nat)
    (hi : i < sh.length) (hj : j < sh.length)
    (he : sh.getD i 0 = sh.getD j 0) : i = j := by
  rw [getD_of_lt _ _ _ hi, getD_of_lt _ _ _ hj] at he
  exact (List.Nodup.getElem_inj_iff hnd).mp he

theorem add_mod_ne_self (n i k : Nat) (h : i < n) (hk : 0 < k) (hk2 : k < n) :
    (i + k) % n ≠ i := by
  intro he
  have h1 : (i + k) % n = i % n := by rw [he, Nat.mod_eq_of_lt h]
  have h2 : k % n = 0 % n := Nat.ModEq.add_left_cancel' i h1
  have h3 : n ∣ k := by
    rwa [Nat.zero_mod, ← Nat.dvd_iff_mod_eq_zero] at h2
  exact absurd (Nat.le_of_dvd hk h3) (by omega)

theorem mod_succ_inj (n i j : Nat) (hi : i < n) (hj : j < n)
    (he : (i + 1) % n = (j + 1) % n) : i = j := by
  have h2 : i % n = j % n := Nat.ModEq.add_right_cancel' 1 he
  rwa [Nat.mod_eq_of_lt hi, Nat.mod_eq_of_lt hj] at h2

/-- Claim C1: for every participant set of n ≥ 2 internal ids, `start_santa`
assigns the participant at shuffled position `i` the participant at position
`(i+1) mod n`; the resulting recipient mapping is a permutation of the id set
forming exactly one cycle that covers all n ids (iterating it returns to the
start first after exactly n steps, and reaches every id in under n steps),
and no id maps to itself. -/
theorem C1_assignment_single_cycle (db : DB) (shuffled : List Int)
    (hnd : (db.users.map User.id).Nodup)
    (hperm : List.Perm shuffled (db.users.map User.id))
    (hlen : 2 ≤ db.users.length) :
    (∀ i, i < shuffled.length →
      recipientOf (start_santa db shuffled).1.users (shuffled.getD i 0) =
        some (shuffled.getD ((i + 1) % shuffled.length) 0)) ∧
    (∀ a ∈ db.users.map User.id,
      recipientOf (start_santa db shuffled).1.users a ≠ some a) ∧
    (∀ b ∈ db.users.map User.id, ∃ a ∈ db.users.map User.id,
      recipientOf (start_santa db shuffled).1.users a = some b) ∧
    (∀ a₁ ∈ db.users.map User.id, ∀ a₂ ∈ db.users.map User.id,
      recipientOf (start_santa db shuffled).1.users a₁ =
        recipientOf (start_santa db shuffled).1.users a₂ → a₁ = a₂) ∧
    (∀ a ∈ db.users.map User.id,
      iterRec (start_santa db shuffled).1.users shuffled.length a = some a ∧
      ∀ k, 0 < k → k < shuffled.length →
        iterRec (start_santa db shuffled).1.users k a ≠ some a) ∧
    (∀ a ∈ db.users.map User.id, ∀ b ∈ db.users.map User.id,
      ∃ k, k < shuffled.length ∧
        iterRec (start_santa db shuffled).1.users k a = some b) := by
  have hn : shuffled.length = db.users.length := by
    rw [hperm.length_eq, List.length_map]
  have hshnd : shuffled.Nodup := hperm.nodup_iff.mpr hnd
  have hidx : ∀ a ∈ db.users.map User.id,
      ∃ i, i < shuffled.length ∧ shuffled.getD i 0 = a := by
    intro a ha
    exact mem_getD_index shuffled a (hperm.mem_iff.mpr ha)
  refine ⟨?_, ?_, ?_, ?_, ?_, ?_⟩
  · intro i hi
    exact recipient_start_santa db shuffled hnd hperm hlen i hi
  · intro a ha he
    obtain ⟨i, hi, rfl⟩ := hidx a ha
    rw [recipient_start_santa db shuffled hnd hperm hlen i hi] at he
    have hieq := getD_inj_nodup shuffled hshnd ((i + 1) % shuffled.length) i
      (Nat.mod_lt _ (by omega)) hi (Option.some.inj he)
    exact add_mod_ne_self shuffled.length i 1 hi (by omega) (by omega) hieq
  · intro b hb
    obtain ⟨j, hj, rfl⟩ := hidx b hb
    have hlt : (j + (shuffled.length - 1)) % shuffled.length < shuffled.length :=
      Nat.mod_lt _ (by omega)
    refine ⟨shuffled.getD ((j + (shuffled.length - 1)) % shuffled.length) 0, ?_, ?_⟩
    · rw [getD_of_lt _ _ _ hlt]
      exact hperm.mem_iff.mp (List.getElem_mem hlt)
    · rw [recipient_start_santa db shuffled hnd hperm hlen _ hlt]
      congr 1
      rw [Nat.mod_add_mod]
      have he1 : j + (shuffled.length - 1) + 1 = j + shuffled.length := by omega
      rw [he1, Nat.add_mod_right, Nat.mod_eq_of_lt hj]
  · intro a₁ h₁ a₂ h₂ he
    obtain ⟨i₁, hi₁, rfl⟩ := hidx a₁ h₁
    obtain ⟨i₂, hi₂, rfl⟩ := hidx a₂ h₂
    rw [recipient_start_santa db shuffled hnd hperm hlen i₁ hi₁,
      recipient_start_santa db shuffled hnd hperm hlen i₂ hi₂] at he
    have hieq := getD_inj_nodup shuffled hshnd _ _
      (Nat.mod_lt _ (by omega)) (Nat.mod_lt _ (by omega)) (Option.some.inj he)
    rw [mod_succ_inj shuffled.length i₁ i₂ hi₁ hi₂ hieq]
  · intro a ha
    obtain ⟨i, hi, rfl⟩ := hidx a ha
    constructor
    · rw [iterRec_start_santa db shuffled hnd hperm hlen shuffled.length i hi]
      rw [Nat.add_mod_right, Nat.mod_eq_of_lt hi]
    · intro k hk hk2 he
      rw [iterRec_start_santa db shuffled hnd hperm hlen k i hi] at he
      have hieq := getD_inj_nodup shuffled hshnd _ _
        (Nat.mod_lt _ (by omega)) hi (Option.some.inj he)
      exact add_mod_ne_self shuffled.length i k hi hk hk2 hieq
  · intro a ha b hb
    obtain ⟨i, hi, rfl⟩ := hidx a ha
    obtain ⟨j, hj, rfl⟩ := hidx b hb
    refine ⟨(j + shuffled.length - i) % shuffled.length, Nat.mod_lt _ (by omega), ?_⟩
    rw [iterRec_start_santa db shuffled hnd hperm hlen _ i hi]
    congr 1
    rw [Nat.add_mod_mod]
    have he1 : i + (j + shuffled.length - i) = j + shuffled.length := by omega
    rw [he1, Nat.add_mod_right, Nat.mod_eq_of_lt hj]

/-- Witness for C1 on the three-user fixture with shuffle order [2, 3, 1]. -/
theorem C1_witness :
    recipientOf (start_santa dbThree [2, 3, 1]).1.users 2 = some 3 ∧
    iterRec (start_santa dbThree [2, 3, 1]).1.users 3 1 = some 1 := by
  have h := C1_assignment_single_cycle dbThree [2, 3, 1] (by decide) (by decide) (by decide)
  constructor
  · exact h.1 0 (by decide)
  · exact (h.2.2.2.2.1 1 (by decide)).1

/-- The assignment updates touch no field other than `santa_id`. -/
theorem updOne_field {α : Type} (f : User → α)
    (hf : ∀ v r, f { v with santa_id := some r } = f v)
    (u : User) (pairs : List (Int × Int)) : f (updOne u pairs) = f u := by
  induction pairs generalizing u with
  | nil => rfl
  | cons p ps ih =>
    show f (updOne (if u.id = p.1 then { u with santa_id := some p.2 } else u) ps) = f u
    by_cases h : u.id = p.1
    · rw [if_pos h, ih _, hf]
    · rw [if_neg h, ih u]

theorem start_santa_getD (db : DB) (sh : List Int) (hlen : 2 ≤ db.users.length)
    (i : Nat) (hi : i < db.users.length) :
    (start_santa db sh).1.users.getD i default =
      updOne (db.users.getD i default) (cyclePairs sh) := by
  have hchar := (start_santa_char db sh hlen).1
  have hi2 : i < (start_santa db sh).1.users.length := by
    rw [hchar, List.length_map]
    exact hi
  rw [getD_of_lt _ _ _ hi2, getD_of_lt _ _ _ hi]
  rw [List.getElem_of_eq hchar hi2, List.getElem_map]

/-- Claim C9: re-invoking `start_santa` on a state whose assignments already
exist overwrites every participant's `recipient_id` with the new cycle while
leaving `gift_given`, `gift_received` and every other profile field of every
participant unchanged. -/
theorem C9_rerun_overwrites_keeps_flags (db : DB) (shuffled : List Int)
    (hnd : (db.users.map User.id).Nodup)
    (hperm : List.Perm shuffled (db.users.map User.id))
    (hlen : 2 ≤ db.users.length)
    (hprev : ∀ u ∈ db.users, u.santa_id.isSome = true) :
    (start_santa db shuffled).1.users.length = db.users.length ∧
    ∀ i, i < db.users.length →
      ((start_santa db shuffled).1.users.getD i default).id = (db.users.getD i default).id ∧
      ((start_santa db shuffled).1.users.getD i default).telegram_id
        = (db.users.getD i default).telegram_id ∧
      ((start_santa db shuffled).1.users.getD i default).fio = (db.users.getD i default).fio ∧
      ((start_santa db shuffled).1.users.getD i default).group_name
        = (db.users.getD i default).group_name ∧
      ((start_santa db shuffled).1.users.getD i default).preferences
        = (db.users.getD i default).preferences ∧
      ((start_santa db shuffled).1.users.getD i default).gift_delivered
        = (db.users.getD i default).gift_delivered ∧
      ((start_santa db shuffled).1.users.getD i default).gift_received
        = (db.users.getD i default).gift_received ∧
      ∃ j, j < shuffled.length ∧ shuffled.getD j 0 = (db.users.getD i default).id ∧
        ((start_santa db shuffled).1.users.getD i default).santa_id
          = some (shuffled.getD ((j + 1) % shuffled.length) 0) := by
  have hshnd : shuffled.Nodup := hperm.nodup_iff.mpr hnd
  constructor
  · rw [(start_santa_char db shuffled hlen).1, List.length_map]
  · intro i hi
    have hupd := start_santa_getD db shuffled hlen i hi
    have hmem : (db.users.getD i default).id ∈ shuffled := by
      rw [hperm.mem_iff]
      refine List.mem_map.mpr ⟨db.users.getD i default, ?_, rfl⟩
      rw [getD_of_lt _ _ _ hi]
      exact List.getElem_mem hi
    obtain ⟨j, hj, hja⟩ := mem_getD_index shuffled _ hmem
    refine ⟨by rw [hupd]; exact updOne_id _ _,
      by rw [hupd]; exact updOne_field (fun u => u.telegram_id) (fun v r => rfl) _ _,
      by rw [hupd]; exact updOne_field (fun u => u.fio) (fun v r => rfl) _ _,
      by rw [hupd]; exact updOne_field (fun u => u.group_name) (fun v r => rfl) _ _,
      by rw [hupd]; exact updOne_field (fun u => u.preferences) (fun v r => rfl) _ _,
      by rw [hupd]; exact updOne_field (fun u => u.gift_delivered) (fun v r => rfl) _ _,
      by rw [hupd]; exact updOne_field (fun u => u.gift_received) (fun v r => rfl) _ _,
      j, hj, hja, ?_⟩
    rw [hupd, updOne_mem_nodup _ _ (shuffled.getD ((j + 1) % shuffled.length) 0)
      (by rw [cyclePairs_map_fst]; exact hshnd)
      (by rw [← hja] at *; exact cyclePairs_mem shuffled j hj)]

/-- Witness for C9 on the two-user fixture with both assignments present,
re-running with shuffle order [2, 1]. -/
theorem C9_witness :
    ((start_santa dbTwoAssigned [2, 1]).1.users.getD 0 default).gift_delivered = false ∧
    ((start_santa dbTwoAssigned [2, 1]).1.users.getD 0 default).fio = "Алиса" := by
  have h := C9_rerun_overwrites_keeps_flags dbTwoAssigned [2, 1]
    (by decide) (by decide) (by decide) (by decide)
  have h0 := h.2 0 (by decide)
  exact ⟨h0.2.2.2.2.2.1, h0.2.2.1⟩

/-- `start_santa` with fewer than 2 users returns the count and writes
nothing. -/
theorem start_santa_small (db : DB) (sh : List Int) (h : db.users.length < 2) :
    start_santa db sh = (db, db.users.length) := by
  unfold start_santa
  rw [if_pos (by rw [List.length_map]; omega), List.length_map]

/-- Claim C4: with fewer than 2 participants, a `/start_event` run performs
zero database writes (the state, including `recipient_id`s and
`event_started`, is returned unchanged) and signals failure to the caller
(the handler sends the need-at-least-2 message). -/
theorem C4_too_few_participants (db : DB) (chat admin : Int)
    (organizers shuffled : List Int)
    (hadm : organizers.contains admin = true)
    (hlen : db.users.length < 2) :
    start_santa db shuffled = (db, db.users.length) ∧
    handle_admin_commands db chat "/start_event" admin organizers shuffled =
      (db, [(chat, "❌ Для жеребьевки нужно минимум 2 участника")]) := by
  have hss := start_santa_small db shuffled hlen
  refine ⟨hss, ?_⟩
  unfold handle_admin_commands
  rw [hadm]
  rw [if_neg (by decide), if_neg (by decide), if_neg (by decide), if_neg (by decide),
    if_neg (by decide), if_pos rfl, hss]
  rw [if_neg (by omega : ¬ ((db, db.users.length).2 > 1))]

/-- Witness for C4 on the one-user fixture. -/
theorem C4_witness :
    start_santa dbOne [1] = (dbOne, 1) ∧
    handle_admin_commands dbOne 999 "/start_event" 999 [999] [1] =
      (dbOne, [(999, "❌ Для жеребьевки нужно минимум 2 участника")]) := by
  have h := C4_too_few_participants dbOne 999 999 [999] [1] (by decide) (by decide)
  exact h

/-- Claim C8: `close-registration` is idempotent: from any state, running
`/close` twice leaves `registration_open = false` after each invocation,
returns the same confirmation both times, changes nothing on the second run,
and (being a total function) raises no error. -/
theorem C8_close_registration_idempotent (db : DB) (chat admin : Int)
    (organizers shuffled : List Int)
    (hadm : organizers.contains admin = true) :
    (handle_admin_commands db chat "/close" admin organizers shuffled).1.settings.registration_open
      = false ∧
    (handle_admin_commands
        (handle_admin_commands db chat "/close" admin organizers shuffled).1
        chat "/close" admin organizers shuffled).1.settings.registration_open = false ∧
    (handle_admin_commands db chat "/close" admin organizers shuffled).2 =
      [(chat, "✅ Регистрация закрыта!")] ∧
    (handle_admin_commands
        (handle_admin_commands db chat "/close" admin organizers shuffled).1
        chat "/close" admin organizers shuffled).2 =
      (handle_admin_commands db chat "/close" admin organizers shuffled).2 ∧
    (handle_admin_commands
        (handle_admin_commands db chat "/close" admin organizers shuffled).1
        chat "/close" admin organizers shuffled).1 =
      (handle_admin_commands db chat "/close" admin organizers shuffled).1 := by
  have hone : ∀ d : DB, handle_admin_commands d chat "/close" admin organizers shuffled =
      (close_registration d, [(chat, "✅ Регистрация закрыта!")]) := by
    intro d
    unfold handle_admin_commands
    rw [hadm]
    rw [if_neg (by decide), if_neg (by decide), if_neg (by decide), if_pos rfl]
  rw [hone db, hone (close_registration db)]
  exact ⟨rfl, rfl, rfl, rfl, rfl⟩

/-- Witness for C8 on the three-user fixture. -/
theorem C8_witness :
    (handle_admin_commands dbThree 999 "/close" 999 [999] []).1.settings.registration_open
      = false ∧
    (handle_admin_commands dbThree 999 "/close" 999 [999] []).2 =
      [(999, "✅ Регистрация закрыта!")] := by
  have h := C8_close_registration_idempotent dbThree 999 999 [999] [] (by decide)
  exact ⟨h.1, h.2.2.1⟩

/-- Claim C5: `/start` from an external id with a persisted Participant
produces the assignment view when the event has started, and otherwise the
already-registered confirmation carrying the internal id; if the id has no
Participant and registration is closed, the fixed closed message is sent.
In all three cases the session map is returned unchanged (no session is
created). -/
theorem C5_start_branches (db : DB) (ud : Sessions) (chat uid : Int) (uname : String) :
    (∀ u, findUserByTelegram db.users uid = some u → db.settings.event_started = true →
      handle_start db ud chat uid uname = (ud, show_assignment db chat u.id)) ∧
    (∀ u, findUserByTelegram db.users uid = some u → db.settings.event_started = false →
      handle_start db ud chat uid uname =
        (ud, [(chat, "Привет, " ++ u.fio ++ "! Ты уже зарегистрирован.\nТвой ID: Тайный Дед Мороз "
          ++ toString u.id ++ "\n\nЖди начала мероприятия!")])) ∧
    (findUserByTelegram db.users uid = none → db.settings.registration_open = false →
      handle_start db ud chat uid uname =
        (ud, [(chat, "Регистрация на мероприятие закрыта! 🎅")])) := by
  refine ⟨?_, ?_, ?_⟩
  · intro u hf he
    simp [handle_start, hf, is_event_started, he]
  · intro u hf he
    simp [handle_start, hf, is_event_started, he]
  · intro hf hr
    simp [handle_start, hf, is_registration_open, hr]

/-- Witness for C5: all three branches on the fixtures. -/
theorem C5_witness :
    handle_start dbTwoAssigned [] 7 101 "Имя" = ([], show_assignment dbTwoAssigned 7 1) ∧
    handle_start dbThree [] 7 101 "Имя" =
      ([], [(7, "Привет, Алиса! Ты уже зарегистрирован.\nТвой ID: Тайный Дед Мороз 1\n\nЖди начала мероприятия!")]) ∧
    handle_start dbTwoAssigned [] 7 999 "Имя" =
      ([], [(7, "Регистрация на мероприятие закрыта! 🎅")]) := by
  refine ⟨?_, ?_, ?_⟩
  · have h := (C5_start_branches dbTwoAssigned [] 7 101 "Имя").1 userAliceAssigned
      (by decide) (by decide)
    rw [h]
    decide
  · have h := (C5_start_branches dbThree [] 7 101 "Имя").2.1 userAlice (by decide) (by decide)
    rw [h]
    decide
  · have h := (C5_start_branches dbTwoAssigned [] 7 999 "Имя").2.2 (by decide) (by decide)
    rw [h]

/-- Claim C10: `/start` while registration is open, from an external id with
no persisted Participant but an active session at any step with any collected
fields, replaces that session by a fresh one at the name-collecting step with
no collected fields; other ids' sessions are untouched. -/
theorem C10_start_resets_session (db : DB) (ud : Sessions) (chat uid : Int)
    (uname : String) (s : Session)
    (hsess : getSession ud uid = some s)
    (hfind : findUserByTelegram db.users uid = none)
    (hreg : db.settings.registration_open = true) :
    handle_start db ud chat uid uname =
      (setSession ud uid { step := Step.fio, fio := none, group := none },
       [(chat, "Привет, " ++ uname ++ "! 🎄\nДобро пожаловать в Тайного Деда Мороза!\n\nВведи свое ФИО:")]) ∧
    getSession (handle_start db ud chat uid uname).1 uid =
      some { step := Step.fio, fio := none, group := none } ∧
    ∀ k, ¬ k = uid → getSession (handle_start db ud chat uid uname).1 k = getSession ud k := by
  have hbr : handle_start db ud chat uid uname =
      (setSession ud uid { step := Step.fio, fio := none, group := none },
       [(chat, "Привет, " ++ uname ++ "! 🎄\nДобро пожаловать в Тайного Деда Мороза!\n\nВведи свое ФИО:")]) := by
    simp [handle_start, hfind, is_registration_open, hreg]
  refine ⟨hbr, ?_, ?_⟩
  · rw [hbr]
    exact getSession_set_same ud uid _
  · intro k hk
    rw [hbr]
    exact getSession_set_other ud uid k _ hk

/-- Witness for C10: a session mid-dialogue at the preferences step is reset. -/
theorem C10_witness :
    handle_start dbThree
        [(999, { step := Step.preferences, fio := some "Имя Ф.", group := some "Г9" })]
        7 999 "Некто" =
      (setSession [(999, { step := Step.preferences, fio := some "Имя Ф.", group := some "Г9" })]
         999 { step := Step.fio, fio := none, group := none },
       [(7, "Привет, Некто! 🎄\nДобро пожаловать в Тайного Деда Мороза!\n\nВведи свое ФИО:")]) ∧
    getSession (handle_start dbThree
        [(999, { step := Step.preferences, fio := some "Имя Ф.", group := some "Г9" })]
        7 999 "Некто").1 999 =
      some { step := Step.fio, fio := none, group := none } := by
  have h := C10_start_resets_session dbThree
    [(999, { step := Step.preferences, fio := some "Имя Ф.", group := some "Г9" })]
    7 999 "Некто" { step := Step.preferences, fio := some "Имя Ф.", group := some "Г9" }
    (by decide) (by decide) (by decide)
  exact ⟨h.1, h.2.1⟩

/-- Claim C2 counterexample: on the two-user state with assignments
1 → 2 → 1, marking giver 1 as delivered succeeds, but the delivery
notification goes to participant 1's own transport id (101), and no message
at all is sent to the transport id (102) of participant 2 — the participant
that giver 1 is assigned to (recipient_id 2) — contradicting the claim. -/
theorem C2_counterexample :
    (handle_admin_commands dbTwoAssigned 999 "/gift 1" 999 [999] []).2 =
      [(999, "✅ Подарок от Тайного Деда Мороза 1 отмечен как доставленный"),
       (101, "🎉 Тайный Дед Мороз доставил тебе подарок! Приходи в аудиторию 257!")] ∧
    recipientOf dbTwoAssigned.users 1 = some 2 ∧
    userBorisAssigned.id = 2 ∧
    userBorisAssigned.telegram_id = 102 ∧
    ((handle_admin_commands dbTwoAssigned 999 "/gift 1" 999 [999] []).2.map
        Prod.fst).contains 102 = false := by
  decide

/-- Claim C2 (amended): for every participant g with a successful
mark-delivered command on g's internal id, `gift_given` is set true for g;
and when some participant is assigned to give to g, the delivery
notification is sent to g itself (g's own transport id), not to the
participant g is assigned to. -/
theorem C2_amended_mark_delivered (db : DB) (uid : Int)
    (hnd : (db.users.map User.id).Nodup)
    (g : User) (hg : g ∈ db.users) (hgid : g.id = uid)
    (w : User) (hw : w ∈ db.users) (hws : w.santa_id = some uid) :
    (mark_gift_delivered db uid).2 = true ∧
    (∀ u ∈ (mark_gift_delivered db uid).1.users, u.id = uid → u.gift_delivered = true) ∧
    notify_gift_delivered (mark_gift_delivered db uid).1 uid =
      [(g.telegram_id, "🎉 Тайный Дед Мороз доставил тебе подарок! Приходи в аудиторию 257!")] := by
  refine ⟨?_, ?_, ?_⟩
  · exact List.any_eq_true.mpr ⟨g, hg, by simp [hgid]⟩
  · intro u hu hid
    obtain ⟨v, hv, rfl⟩ := List.mem_map.mp hu
    by_cases h : v.id = uid
    · rw [if_pos h]
    · rw [if_neg h] at hid ⊢
      exact absurd hid h
  · have hsanta : ∀ u : User,
        ((fun v => if v.id = uid then { v with gift_delivered := true } else v) u).santa_id
          = u.santa_id := by
      intro u
      by_cases h : u.id = uid <;> simp [h]
    have hid_pres : ∀ u : User,
        ((fun v => if v.id = uid then { v with gift_delivered := true } else v) u).id = u.id := by
      intro u
      by_cases h : u.id = uid <;> simp [h]
    have h1 : (mark_gift_delivered db uid).1.users.find? (fun u => u.santa_id = some uid) =
        (db.users.find? (fun u => u.santa_id = some uid)).map
          (fun v => if v.id = uid then { v with gift_delivered := true } else v) := by
      show (db.users.map _).find? _ = _
      rw [List.find?_map]
      have hp : ((fun u : User => decide (u.santa_id = some uid)) ∘
          (fun v => if v.id = uid then { v with gift_delivered := true } else v)) =
          (fun u : User => decide (u.santa_id = some uid)) := by
        funext u
        rw [Function.comp_apply, hsanta u]
      rw [hp]
    have hsome : (db.users.find? (fun u => u.santa_id = some uid)).isSome := by
      rw [List.find?_isSome]
      exact ⟨w, hw, decide_eq_true hws⟩
    obtain ⟨x, hx⟩ := Option.isSome_iff_exists.mp hsome
    have h2 : findUserById (mark_gift_delivered db uid).1.users uid =
        some { g with gift_delivered := true } := by
      show findUserById (db.users.map _) uid = _
      unfold findUserById
      rw [find?_map_key db.users _ hid_pres uid,
        find?_eq_of_mem_nodup db.users hnd g hg uid hgid, Option.map_some', if_pos hgid]
    unfold notify_gift_delivered
    rw [h1, hx, Option.map_some', h2]

/-- Witness for C2 (amended) on the two-user assigned fixture, marking
giver 1. -/
theorem C2_witness :
    (mark_gift_delivered dbTwoAssigned 1).2 = true ∧
    notify_gift_delivered (mark_gift_delivered dbTwoAssigned 1).1 1 =
      [(101, "🎉 Тайный Дед Мороз доставил тебе подарок! Приходи в аудиторию 257!")] := by
  have h := C2_amended_mark_delivered dbTwoAssigned 1 (by decide)
    userAliceAssigned (by decide) (by decide)
    userBorisAssigned (by decide) (by decide)
  exact ⟨h.1, by rw [h.2.2]; decide⟩

/-- An admin text matching no branch of the `elif` chain falls through:
no message is sent and nothing is written. -/
theorem handle_admin_fallthrough (db : DB) (chat admin : Int)
    (organizers shuffled : List Int) (text : String)
    (hadm : organizers.contains admin = true)
    (h1 : ¬ text = "/stats") (h2 : ¬ text = "/users") (h3 : ¬ text = "/close")
    (h4 : ¬ text = "/open") (h5 : ¬ text = "/start_event")
    (h6 : startswith text "/del " = false) (h7 : startswith text "/gift " = false)
    (h8 : startswith text "/received " = false) (h9 : ¬ text = "/help_admin") :
    handle_admin_commands db chat text admin organizers shuffled = (db, []) := by
  unfold handle_admin_commands
  rw [hadm, if_neg (by decide), if_neg h1, if_neg h2, if_neg h3, if_neg h4, if_neg h5,
    if_neg (by simp [h6]), if_neg (by simp [h7]), if_neg (by simp [h8]), if_neg h9]

/-- Dispatch of `/del <arg>` to the delete branch, for any whitespace-free
nonempty argument. -/
theorem handle_del_dispatch (db : DB) (chat admin : Int)
    (organizers shuffled : List Int) (arg : String)
    (hadm : organizers.contains admin = true)
    (harg_ne : arg.data ≠ [])
    (harg_sp : ∀ c ∈ arg.data, isSpaceChar c = false) :
    handle_admin_commands db chat ("/del " ++ arg) admin organizers shuffled =
      (match pyint arg with
       | some uid =>
         match (delete_user db uid).2 with
         | some user_info =>
           ((delete_user db uid).1,
            [(chat, "✅ Пользователь удален:\nID: " ++ toString user_info.id
               ++ "\nФИО: " ++ user_info.fio ++ "\nГруппа: " ++ user_info.group_name)]
            ++ (if is_event_started (delete_user db uid).1 then
                 [(chat, "⚠️ Мероприятие уже началось. Рекомендуется перепровести жеребьевку командой /start_event")]
               else []))
         | none => ((delete_user db uid).1, [(chat, "❌ Пользователь с таким ID не найден")])
       | none => (db, [(chat, "Использование: /del <ID>\n\nНапример: /del 5")])) := by
  unfold handle_admin_commands
  rw [hadm, if_neg (by decide),
    if_neg (append_ne_of_not_pref "/del " arg "/stats" (by decide)),
    if_neg (append_ne_of_not_pref "/del " arg "/users" (by decide)),
    if_neg (append_ne_of_not_pref "/del " arg "/close" (by decide)),
    if_neg (append_ne_of_not_pref "/del " arg "/open" (by decide)),
    if_neg (append_ne_of_not_pref "/del " arg "/start_event" (by decide)),
    if_pos (startswith_append_self "/del " arg),
    parseNumArg_token "/del " ("/del".data) arg (by decide) (by decide) (by decide)
      harg_ne harg_sp]

/-- Dispatch of `/gift <arg>` to the mark-delivered branch. -/
theorem handle_gift_dispatch (db : DB) (chat admin : Int)
    (organizers shuffled : List Int) (arg : String)
    (hadm : organizers.contains admin = true)
    (harg_ne : arg.data ≠ [])
    (harg_sp : ∀ c ∈ arg.data, isSpaceChar c = false) :
    handle_admin_commands db chat ("/gift " ++ arg) admin organizers shuffled =
      (match pyint arg with
       | some uid =>
         if (mark_gift_delivered db uid).2 then
           ((mark_gift_delivered db uid).1,
            (chat, "✅ Подарок от Тайного Деда Мороза " ++ toString uid
               ++ " отмечен как доставленный")
             :: notify_gift_delivered (mark_gift_delivered db uid).1 uid)
         else
           ((mark_gift_delivered db uid).1, [(chat, "❌ Пользователь не найден")])
       | none => (db, [(chat, "Использование: /gift <ID>\n\nНапример: /gift 3")])) := by
  unfold handle_admin_commands
  rw [hadm, if_neg (by decide),
    if_neg (append_ne_of_not_pref "/gift " arg "/stats" (by decide)),
    if_neg (append_ne_of_not_pref "/gift " arg "/users" (by decide)),
    if_neg (append_ne_of_not_pref "/gift " arg "/close" (by decide)),
    if_neg (append_ne_of_not_pref "/gift " arg "/open" (by decide)),
    if_neg (append_ne_of_not_pref "/gift " arg "/start_event" (by decide)),
    if_neg (by simp [startswith_append_ne "/gift " arg "/del " (by decide) (by decide)]),
    if_pos (startswith_append_self "/gift " arg),
    parseNumArg_token "/gift " ("/gift".data) arg (by decide) (by decide) (by decide)
      harg_ne harg_sp]

/-- Dispatch of `/received <arg>` to the mark-received branch. -/
theorem handle_received_dispatch (db : DB) (chat admin : Int)
    (organizers shuffled : List Int) (arg : String)
    (hadm : organizers.contains admin = true)
    (harg_ne : arg.data ≠ [])
    (harg_sp : ∀ c ∈ arg.data, isSpaceChar c = false) :
    handle_admin_commands db chat ("/received " ++ arg) admin organizers shuffled =
      (match pyint arg with
       | some uid =>
         if (mark_gift_received db uid).2 then
           ((mark_gift_received db uid).1,
            [(chat, "✅ Подарок для Тайного Деда Мороза " ++ toString uid
               ++ " отмечен как полученный")])
         else
           ((mark_gift_received db uid).1, [(chat, "❌ Пользователь не найден")])
       | none => (db, [(chat, "Использование: /received <ID>\n\nНапример: /received 7")])) := by
  unfold handle_admin_commands
  rw [hadm, if_neg (by decide),
    if_neg (append_ne_of_not_pref "/received " arg "/stats" (by decide)),
    if_neg (append_ne_of_not_pref "/received " arg "/users" (by decide)),
    if_neg (append_ne_of_not_pref "/received " arg "/close" (by decide)),
    if_neg (append_ne_of_not_pref "/received " arg "/open" (by decide)),
    if_neg (append_ne_of_not_pref "/received " arg "/start_event" (by decide)),
    if_neg (by simp [startswith_append_ne "/received " arg "/del " (by decide) (by decide)]),
    if_neg (by simp [startswith_append_ne "/received " arg "/gift " (by decide) (by decide)]),
    if_pos (startswith_append_self "/received " arg),
    parseNumArg_token "/received " ("/received".data) arg (by decide) (by decide) (by decide)
      harg_ne harg_sp]

/-- Claim C7: a `/gift` (mark-delivered) command for an internal id present
in no row returns the not-found result, sends the admin exactly the
not-found message, leaves the database unchanged, and sends no delivery
notification to any participant. -/
theorem C7_mark_delivered_unknown (db : DB) (chat admin : Int)
    (organizers shuffled : List Int) (arg : String) (uid : Int)
    (hadm : organizers.contains admin = true)
    (harg_ne : arg.data ≠ [])
    (harg_sp : ∀ c ∈ arg.data, isSpaceChar c = false)
    (hparse : pyint arg = some uid)
    (hmiss : ∀ u ∈ db.users, ¬ u.id = uid) :
    handle_admin_commands db chat ("/gift " ++ arg) admin organizers shuffled =
      (db, [(chat, "❌ Пользователь не найден")]) ∧
    (mark_gift_delivered db uid).2 = false := by
  have hany : db.users.any (fun u => u.id = uid) = false :=
    List.any_eq_false.mpr (fun u hu => by simpa using hmiss u hu)
  have h2 : (mark_gift_delivered db uid).2 = false := hany
  have h1 : (mark_gift_delivered db uid).1 = db := by
    show ({ db with users := db.users.map _ } : DB) = db
    rw [map_id_of_no_match db.users uid _ hmiss]
  refine ⟨?_, h2⟩
  rw [handle_gift_dispatch db chat admin organizers shuffled arg hadm harg_ne harg_sp, hparse]
  simp [h1, h2]

/-- Witness for C7: marking the unknown id 5 on the two-user fixture. -/
theorem C7_witness :
    handle_admin_commands dbTwoAssigned 999 "/gift 5" 999 [999] [] =
      (dbTwoAssigned, [(999, "❌ Пользователь не найден")]) ∧
    (mark_gift_delivered dbTwoAssigned 5).2 = false := by
  have h := C7_mark_delivered_unknown dbTwoAssigned 999 999 [999] [] "5" 5
    (by decide) (by decide) (by decide) (by decide) (by decide)
  have e : ("/gift " ++ "5" : String) = "/gift 5" := by decide
  rw [e] at h
  exact h

/-- Claim C3 counterexample: the bare token `/del` sent by an organizer is
routed to the admin handler (it passes the prefix check of the router) but
matches no branch of the `elif` chain: no message of any kind is sent and
nothing is mutated — a silent no-op, where the claim requires a usage
message. -/
theorem C3_counterexample :
    route_message dbThree [] 999 999 "Имя" "/del" [999] [] = (dbThree, [], []) ∧
    handle_admin_commands dbThree 999 "/del" 999 [999] [] = (dbThree, []) := by
  decide

/-- Claim C3 (amended): for the numeric-argument commands `/del`, `/gift`,
`/received` sent by an organizer with a space and a malformed (non-numeric,
whitespace-free) argument, the handler sends the usage message and attempts
no mutation; but the bare tokens `/del`, `/gift`, `/received` with no
argument are silent no-ops — no message is sent (still with no mutation). -/
theorem C3_amended_usage_or_silent (db : DB) (chat admin : Int)
    (organizers shuffled : List Int) (arg : String)
    (hadm : organizers.contains admin = true)
    (harg_ne : arg.data ≠ [])
    (harg_sp : ∀ c ∈ arg.data, isSpaceChar c = false)
    (hbad : pyint arg = none) :
    handle_admin_commands db chat ("/del " ++ arg) admin organizers shuffled =
      (db, [(chat, "Использование: /del <ID>\n\nНапример: /del 5")]) ∧
    handle_admin_commands db chat ("/gift " ++ arg) admin organizers shuffled =
      (db, [(chat, "Использование: /gift <ID>\n\nНапример: /gift 3")]) ∧
    handle_admin_commands db chat ("/received " ++ arg) admin organizers shuffled =
      (db, [(chat, "Использование: /received <ID>\n\nНапример: /received 7")]) ∧
    handle_admin_commands db chat "/del" admin organizers shuffled = (db, []) ∧
    handle_admin_commands db chat "/gift" admin organizers shuffled = (db, []) ∧
    handle_admin_commands db chat "/received" admin organizers shuffled = (db, []) := by
  refine ⟨?_, ?_, ?_, ?_, ?_, ?_⟩
  · rw [handle_del_dispatch db chat admin organizers shuffled arg hadm harg_ne harg_sp, hbad]
  · rw [handle_gift_dispatch db chat admin organizers shuffled arg hadm harg_ne harg_sp, hbad]
  · rw [handle_received_dispatch db chat admin organizers shuffled arg hadm harg_ne harg_sp,
      hbad]
  · exact handle_admin_fallthrough db chat admin organizers shuffled "/del" hadm
      (by decide) (by decide) (by decide) (by decide) (by decide)
      (by decide) (by decide) (by decide) (by decide)
  · exact handle_admin_fallthrough db chat admin organizers shuffled "/gift" hadm
      (by decide) (by decide) (by decide) (by decide) (by decide)
      (by decide) (by decide) (by decide) (by decide)
  · exact handle_admin_fallthrough db chat admin organizers shuffled "/received" hadm
      (by decide) (by decide) (by decide) (by decide) (by decide)
      (by decide) (by decide) (by decide) (by decide)

/-- Witness for C3 (amended): the malformed argument "abc" and the bare
tokens on the three-user fixture. -/
theorem C3_witness :
    handle_admin_commands dbThree 999 "/del abc" 999 [999] [] =
      (dbThree, [(999, "Использование: /del <ID>\n\nНапример: /del 5")]) ∧
    handle_admin_commands dbThree 999 "/gift abc" 999 [999] [] =
      (dbThree, [(999, "Использование: /gift <ID>\n\nНапример: /gift 3")]) ∧
    handle_admin_commands dbThree 999 "/received abc" 999 [999] [] =
      (dbThree, [(999, "Использование: /received <ID>\n\nНапример: /received 7")]) ∧
    handle_admin_commands dbThree 999 "/gift" 999 [999] [] = (dbThree, []) := by
  have h := C3_amended_usage_or_silent dbThree 999 999 [999] [] "abc"
    (by decide) (by decide) (by decide) (by decide)
  have e1 : ("/del " ++ "abc" : String) = "/del abc" := by decide
  have e2 : ("/gift " ++ "abc" : String) = "/gift abc" := by decide
  have e3 : ("/received " ++ "abc" : String) = "/received abc" := by decide
  rw [e1, e2, e3] at h
  exact ⟨h.1, h.2.1, h.2.2.1, h.2.2.2.2.1⟩

/-- The per-update trace of the ingestion fold, for any starting
accumulator. -/
theorem process_updates_trace_aux (organizers shuffled : List Int)
    (updates : List Update) :
    ∀ (st : BotState) (ms : List Msg) (tr : List TraceAction),
    (updates.foldl (fun acc u =>
      ((process_one acc.1 organizers shuffled u).1,
       acc.2.1 ++ (process_one acc.1 organizers shuffled u).2.1,
       acc.2.2 ++ (process_one acc.1 organizers shuffled u).2.2)) (st, ms, tr)).2.2 =
      tr ++ updates.flatMap (fun u =>
        TraceAction.setCursor u.update_id ::
          (match u.message with
           | some _ => [TraceAction.dispatch u.update_id]
           | none => [])) := by
  induction updates with
  | nil =>
    intro st ms tr
    simp
  | cons u us ih =>
    intro st ms tr
    rw [List.foldl_cons, List.flatMap_cons, ih]
    have htr : (process_one st organizers shuffled u).2.2 =
        TraceAction.setCursor u.update_id ::
          (match u.message with
           | some _ => [TraceAction.dispatch u.update_id]
           | none => []) := by
      cases hm : u.message <;> simp [process_one, hm]
    rw [htr, List.append_assoc]

/-- Claim C6: the ingestion loop processes a polled batch in order, emitting
for each event a cursor advance to that event's id immediately before its
dispatch (message-less events advance the cursor without a dispatch), and
each poll requests offset `last_update_id + 1`, i.e. only events with id
strictly greater than the last seen one. -/
theorem C6_cursor_before_dispatch (st : BotState) (organizers shuffled : List Int)
    (updates : List Update) :
    (process_updates st organizers shuffled updates).2.2 =
      updates.flatMap (fun u =>
        TraceAction.setCursor u.update_id ::
          (match u.message with
           | some _ => [TraceAction.dispatch u.update_id]
           | none => [])) ∧
    get_updates_offset st = st.last_update_id + 1 ∧
    (∀ e : Int, get_updates_offset st ≤ e → st.last_update_id < e) := by
  refine ⟨?_, rfl, ?_⟩
  · unfold process_updates
    rw [process_updates_trace_aux organizers shuffled updates st [] [], List.nil_append]
  · intro e he
    have h1 : st.last_update_id + 1 ≤ e := he
    omega

/-- Witness for C6: a two-event batch (a `/help` message and a message-less
event) from cursor 0. -/
theorem C6_witness :
    (process_updates stateZero [] [] [updHelp, updEmpty]).2.2 =
      [TraceAction.setCursor 5, TraceAction.dispatch 5, TraceAction.setCursor 6] ∧
    stateZero.last_update_id < 6 := by
  have h := C6_cursor_before_dispatch stateZero [] [] [updHelp, updEmpty]
  constructor
  · rw [h.1]
    decide
  · exact h.2.2 6 (by decide)
